import Mathlib

/-!
Verification of the MediaBib multi-tenant library-management application.

The development shallowly embeds the Python/Django code of the repository:

* Python strings are lists of Unicode code points (`PyStr := List Nat`);
  the case mapping and whitespace predicate cover the ASCII fragment,
  which is all the repository's data and tests exercise.
* Database tables are Lean lists of rows; `save`/`create` operations are
  explicit state-passing functions; unique-constraint violations and
  raised exceptions are `Except` errors.
* Each embedded definition is named after the source symbol it models
  (`accounts/models.py`, `libraries/forms.py`, `libraries/views.py`,
  `dashboard/views.py`, `config/models.py`, `config/context_processors.py`).
-/

/-- A Python string, as its list of Unicode code points. -/
abbrev PyStr := List Nat

/-- Code points of a Lean string literal, used to write concrete inputs. -/
def pystr (s : String) : PyStr := s.data.map Char.toNat

/-- Embeds `str.lower` on one code point (ASCII fragment: `A`-`Z` map to `a`-`z`). -/
def lowerChar (c : Nat) : Nat := if 65 ≤ c ∧ c ≤ 90 then c + 32 else c

/-- Embeds `str.lower` (ASCII fragment). -/
def lowerStr (s : PyStr) : PyStr := s.map lowerChar

/-- Whitespace predicate of `str.strip` (ASCII fragment: space, `\t`, `\n`,
`\v`, `\f`, `\r`). -/
def isSpaceChar (c : Nat) : Bool := c = 32 || (9 ≤ c && c ≤ 13)

/-- Embeds `str.strip()`: drop leading and trailing whitespace. -/
def pyStrip (s : PyStr) : PyStr :=
  ((s.dropWhile isSpaceChar).reverse.dropWhile isSpaceChar).reverse

/-- Embeds `s.rsplit("@", 1)` when it yields two parts: split at the last `@`
(code point 64); `none` when the string has no `@` (in Python the
two-variable unpacking then raises `ValueError`). -/
def rsplitAtSign : PyStr → Option (PyStr × PyStr)
  | [] => none
  | c :: cs =>
    match rsplitAtSign cs with
    | some (n, d) => some (c :: n, d)
    | none => if c = 64 then some ([], cs) else none

/-- Embeds `BaseUserManager.normalize_email` (Django): strip the string, split at
the last `@`, lowercase the domain part; a string with no `@` is returned
unchanged. -/
def normalize_email (e : PyStr) : PyStr :=
  match rsplitAtSign (pyStrip e) with
  | some (name, domain) => name ++ 64 :: lowerStr domain
  | none => e

/-- The email identity stored by `CustomUserManager.create_user`
(`accounts/models.py` line 26): `self.normalize_email(email).lower()`. -/
def storedEmail (e : PyStr) : PyStr := lowerStr (normalize_email e)

/-- Embeds `CustomUser.ROLE_CHOICES` (`accounts/models.py`). -/
inductive Role
  | superadmin
  | library_admin
  | reader
deriving DecidableEq, Repr

/-- A row of the `CustomUser` table: the columns the verified claims read
(the password hash and profile text columns are irrelevant to every claim
and omitted). -/
structure User where
  email : PyStr
  role : Role
  library_id : Option Nat
  is_active : Bool
  is_staff : Bool
  is_superuser : Bool
deriving DecidableEq, Repr

/-- Embeds `CustomUser.is_superadmin` property. -/
def User.is_superadmin (u : User) : Bool := decide (u.role = Role.superadmin)

/-- Embeds `CustomUser.is_library_admin` property. -/
def User.is_library_admin (u : User) : Bool := decide (u.role = Role.library_admin)

/-- Embeds `CustomUser.is_reader` property. -/
def User.is_reader (u : User) : Bool := decide (u.role = Role.reader)

/-- The `**extra_fields` keyword arguments accepted by the manager's
factory methods: `none` models an absent keyword (so `setdefault` in
`create_superuser` only fills the absent ones), `some v` a keyword passed
with value `v`. -/
structure ExtraFields where
  role : Option Role
  is_staff : Option Bool
  is_superuser : Option Bool
  library_id : Option (Option Nat)
deriving DecidableEq, Repr

/-- Errors raised by the embedded operations: `valueError` models Python
`ValueError`, `integrityError` the database's unique-constraint violation. -/
inductive CreateError
  | valueError
  | integrityError
deriving DecidableEq, Repr

/-- Embeds `CustomUserManager.create_user` (`accounts/models.py` lines 19-32),
without the table write: raises `ValueError` on an empty email, stores
`normalize_email(email).lower()`, and fills each column from
`extra_fields` or the model's declared default (`role="reader"`,
`library=None`, `is_active=True`, `is_staff=False`; `is_superuser=False`
from `PermissionsMixin`). -/
def create_user (email : PyStr) (ef : ExtraFields) : Except CreateError User :=
  if email = [] then .error .valueError
  else .ok
    { email := storedEmail email
      role := ef.role.getD Role.reader
      library_id := ef.library_id.getD none
      is_active := true
      is_staff := ef.is_staff.getD false
      is_superuser := ef.is_superuser.getD false }

/-- Embeds `CustomUserManager.create_superuser` (`accounts/models.py` lines 34-47):
`setdefault` of `is_staff`/`is_superuser` to `True` and `role` to
`"superadmin"`, then the two `ValueError` guards, then `create_user`. -/
def create_superuser (email : PyStr) (ef : ExtraFields) : Except CreateError User :=
  let ef1 : ExtraFields :=
    { ef with
      is_staff := some (ef.is_staff.getD true)
      is_superuser := some (ef.is_superuser.getD true)
      role := some (ef.role.getD Role.superadmin) }
  if ef1.is_staff ≠ some true then .error .valueError
  else if ef1.is_superuser ≠ some true then .error .valueError
  else create_user email ef1

/-- A row of the `Library` table (`libraries/models.py`); the two timestamp
columns are irrelevant to every claim and omitted. -/
structure Library where
  pk : Nat
  name : PyStr
  email : PyStr
  phone : PyStr
  address : PyStr
  postal_code : PyStr
  city : PyStr
  is_active : Bool
deriving DecidableEq, Repr

/-- The database state the claims range over: the `Library` and
`CustomUser` tables. -/
structure DB where
  libraries : List Library
  users : List User
deriving DecidableEq, Repr

/-- Embeds `create_user` followed by `user.save(using=self._db)`: the write
enforces the unique constraint on `CustomUser.email`, raising
`IntegrityError` if a user with the (normalized) email already exists. -/
def create_user_db (db : DB) (email : PyStr) (ef : ExtraFields) :
    Except CreateError (User × DB) :=
  match create_user email ef with
  | .error e => .error e
  | .ok u =>
    if db.users.any (fun v => decide (v.email = u.email)) then .error .integrityError
    else .ok (u, { db with users := db.users ++ [u] })

/-- The cleaned data of `LibraryCreateForm` (`libraries/forms.py`): the six
`Meta.fields` of the Library plus the two password fields. -/
structure CreateFormData where
  name : PyStr
  email : PyStr
  phone : PyStr
  address : PyStr
  postal_code : PyStr
  city : PyStr
  password1 : PyStr
  password2 : PyStr
deriving DecidableEq, Repr

/-- Embeds `LibraryCreateForm.is_valid()`: required fields non-empty
(`name`, `email`, `password1`, `password2`; `phone`/`address`/
`postal_code`/`city` are `blank=True`), `clean_password2` (the two
passwords are equal), and the `ModelForm` unique check of
`Library.email` against the `Library` table. `EmailField` format
validation is abstracted to the presence of an `@`; Django's format check
is strictly stronger, so every form Django accepts is accepted here too. -/
def libraryCreateForm_is_valid (db : DB) (fd : CreateFormData) : Bool :=
  !fd.name.isEmpty && !fd.email.isEmpty && fd.email.contains 64 &&
  !fd.password1.isEmpty && !fd.password2.isEmpty &&
  decide (fd.password1 = fd.password2) &&
  db.libraries.all (fun l => decide (l.email ≠ fd.email))

/-- The auto-increment primary key the database assigns to a new
`Library` row. -/
def freshPk (db : DB) : Nat := (db.libraries.map Library.pk).foldr max 0 + 1

/-- The `Library` row persisted by `super().save(commit=True)` inside
`LibraryCreateForm.save`: the six form fields plus defaults. -/
def newLibrary (db : DB) (fd : CreateFormData) : Library :=
  { pk := freshPk db, name := fd.name, email := fd.email, phone := fd.phone
    address := fd.address, postal_code := fd.postal_code, city := fd.city
    is_active := true }

/-- Embeds `LibraryCreateForm.save(commit=True)` (`libraries/forms.py` lines
53-68): first `super().save(commit=commit)` persists the Library row, then
`User.objects.create_user(email=library.email, role="library_admin",
library=library, ...)` creates the admin account.  There is no enclosing
transaction anywhere in the repository, so when `create_user` raises, the
exception propagates while the already-written Library row stays. -/
def libraryCreateForm_save (db : DB) (fd : CreateFormData) :
    DB × Except CreateError Library :=
  let lib := newLibrary db fd
  let db1 : DB := { db with libraries := db.libraries ++ [lib] }
  match create_user_db db1 lib.email
      { role := some Role.library_admin, is_staff := none, is_superuser := none
        library_id := some (some lib.pk) } with
  | .ok (_, db2) => (db2, .ok lib)
  | .error e => (db1, .error e)

/-- The cleaned data of `LibraryUpdateForm` (`libraries/forms.py` lines
71-76): exactly the six `Meta.fields` — `email` is not among them. -/
structure UpdateFormData where
  name : PyStr
  phone : PyStr
  address : PyStr
  postal_code : PyStr
  city : PyStr
  is_active : Bool
deriving DecidableEq, Repr

/-- Embeds `LibraryUpdateForm.save`: the `ModelForm` writes exactly its
`Meta.fields` onto the instance. -/
def libraryUpdateForm_save (lib : Library) (fd : UpdateFormData) : Library :=
  { lib with
    name := fd.name, phone := fd.phone, address := fd.address
    postal_code := fd.postal_code, city := fd.city, is_active := fd.is_active }

/-- Persisting the updated instance: the row with the instance's primary
key is rewritten, all other rows untouched. -/
def libraryUpdate_persist (db : DB) (pk : Nat) (fd : UpdateFormData) : DB :=
  { db with
    libraries := db.libraries.map
      (fun l => if l.pk = pk then libraryUpdateForm_save l fd else l) }

/-- Embeds `LibraryAdminRequiredMixin.test_func` (`libraries/views.py` lines
30-43): unauthenticated fails; superadmin passes; else a library admin
with a non-null `library` reference. -/
def libraryAdminRequired_test_func (auth : Bool) (u : User) : Bool :=
  if !auth then false
  else if u.is_superadmin then true
  else u.is_library_admin && u.library_id.isSome

/-- Embeds `LibraryUpdateView.get_queryset` (`libraries/views.py` lines 125-132):
superadmin sees every Library, a library admin only the row whose primary
key equals their own `library_id` (`filter(pk=None)` matches nothing). -/
def libraryUpdate_get_queryset (db : DB) (u : User) : List Library :=
  if u.is_superadmin then db.libraries
  else db.libraries.filter (fun l => decide (some l.pk = u.library_id))

/-- Embeds `LibraryUpdateView.get_object` (`libraries/views.py` lines 134-149):
`queryset.get(pk=pk)` raising `Http404` when absent, then the explicit
ownership re-check that also raises `Http404`.  The error value is the
404 signal. -/
def libraryUpdate_get_object (db : DB) (u : User) (pk : Nat) :
    Except Unit Library :=
  match (libraryUpdate_get_queryset db u).find? (fun l => decide (l.pk = pk)) with
  | none => .error ()
  | some obj =>
    if !u.is_superadmin && decide (some obj.pk ≠ u.library_id) then .error ()
    else .ok obj

/-- The observable outcome of a request to the library update endpoint. -/
inductive UpdateResponse
  | success (lib : Library)
  | httpNotFound
  | httpForbidden
  | redirectToLogin
deriving DecidableEq, Repr

/-- The update endpoint's access pipeline: `UserPassesTestMixin.dispatch`
with `LibraryAdminRequiredMixin.test_func` (failure: `PermissionDenied`
(403) when authenticated, login redirect otherwise), then
`get_object` (`Http404` on failure). -/
def libraryUpdate_dispatch (db : DB) (auth : Bool) (u : User) (pk : Nat) :
    UpdateResponse :=
  if libraryAdminRequired_test_func auth u then
    match libraryUpdate_get_object db u pk with
    | .error _ => .httpNotFound
    | .ok obj => .success obj
  else if auth then .httpForbidden
  else .redirectToLogin

/-- The observable outcome of the superadmin-only gate on the library
list/create endpoints. -/
inductive GateResponse
  | proceed
  | httpForbidden
  | redirectToLogin
deriving DecidableEq, Repr

/-- The gate of `LibraryListView` and `LibraryCreateView`
(`libraries/views.py` lines 18-28): `SuperAdminRequiredMixin.test_func` is
`is_authenticated and is_superadmin`; on failure `UserPassesTestMixin`
raises `PermissionDenied` (403) for an authenticated principal and
redirects to login otherwise. -/
def libraries_superAdminRequired_gate (auth : Bool) (u : User) : GateResponse :=
  if auth && u.is_superadmin then .proceed
  else if auth then .httpForbidden
  else .redirectToLogin

/-- The library-admin dashboard context (`page_title`, breadcrumb and the
two reader entries; the constant strings carry no information and are
dropped). -/
structure LibContext where
  total_readers : Nat
  readers : List User
deriving DecidableEq, Repr

/-- Embeds `User.objects.filter(library=request.user.library, role="reader")`. -/
def libraryReaders (db : DB) (u : User) : List User :=
  db.users.filter
    (fun r => decide (r.library_id = u.library_id) && decide (r.role = Role.reader))

/-- Embeds `SuperAdminRequiredMixin.get_library_context` (`dashboard/views.py`
lines 52-62): `total_readers` is `readers.count()` on the full queryset,
`readers` the queryset capped at 10. -/
def mixin_get_library_context (db : DB) (u : User) : LibContext :=
  let readers := libraryReaders db u
  { total_readers := readers.length, readers := readers.take 10 }

/-- Embeds `DashboardIndexView._get_library_context` (`dashboard/views.py` lines
118-130): `readers_list = list(readers_qs[:10])`, then
`total_readers = len(readers_list)` and `readers = readers_list`. -/
def index_get_library_context (db : DB) (u : User) : LibContext :=
  let readers_list := (libraryReaders db u).take 10
  { total_readers := readers_list.length, readers := readers_list }

/-- The observable outcome of a request to a dashboard endpoint. -/
inductive DashboardResponse
  | libraryAdminDashboard (ctx : LibContext)
  | readerPlaceholder
  | superadminDashboard
  | httpForbidden
  | redirectToLogin
deriving DecidableEq, Repr

/-- Embeds `SuperAdminRequiredMixin.dispatch` of the dashboard app
(`dashboard/views.py` lines 34-50), for an authenticated principal: a
library admin gets the library-admin dashboard rendered with
`get_library_context`, a reader the placeholder render; a superadmin
falls through to the wrapped view. -/
def dashboard_superAdminRequired_dispatch (db : DB) (u : User) : DashboardResponse :=
  if !u.is_superadmin then
    if u.is_library_admin then
      .libraryAdminDashboard (mixin_get_library_context db u)
    else if u.is_reader then .readerPlaceholder
    else .superadminDashboard
  else .superadminDashboard

/-- Embeds `DashboardIndexView` behind `DashboardAccessMixin`
(`dashboard/views.py` lines 20-31, 65-95): unauthenticated requests are
redirected; readers get the placeholder render; otherwise the template
and context are selected by role (`get_template_names` /
`get_context_data`), a library admin rendering `_get_library_context`. -/
def dashboardIndex_view (db : DB) (auth : Bool) (u : User) : DashboardResponse :=
  if !auth then .redirectToLogin
  else if u.is_reader then .readerPlaceholder
  else if u.is_superadmin then .superadminDashboard
  else if u.is_library_admin then
    .libraryAdminDashboard (index_get_library_context db u)
  else .readerPlaceholder

/-- The request session, restricted to the one key the claims read:
`generated_password`. -/
structure Session where
  generated_password : Option PyStr
deriving DecidableEq, Repr

/-- The session effect of `LibraryCreateView.form_valid`
(`libraries/views.py` lines 95-114): after the form is saved, the
plaintext `password1` is stored under `generated_password` when truthy. -/
def libraryCreate_form_valid_session (s : Session) (password1 : PyStr) : Session :=
  if !password1.isEmpty then { generated_password := some password1 } else s

/-- The session effect of `LibraryCreateView.get_context_data`
(`libraries/views.py` lines 75-93): `session.pop("generated_password",
None)`; the popped value enters the rendered context when truthy.
Returns (context value, session after the request). -/
def libraryCreate_get_context (s : Session) : Option PyStr × Session :=
  let popped := s.generated_password
  let s1 : Session := { generated_password := none }
  match popped with
  | some p => if !p.isEmpty then (some p, s1) else (none, s1)
  | none => (none, s1)

/-- A row of the `SiteConfig` table (`config/models.py`): the primary key
and the `site_name` column (default `"MediaBibli"`); the remaining
columns are irrelevant to every claim and omitted. -/
structure SiteConfig where
  pk : Nat
  site_name : PyStr
deriving DecidableEq, Repr

/-- A fresh `SiteConfig` row with the model's column defaults. -/
def defaultSiteConfig (k : Nat) : SiteConfig := { pk := k, site_name := pystr "MediaBibli" }

/-- The `SiteConfig` table. -/
abbrev ConfigTable := List SiteConfig

/-- Django `objects.get_or_create(pk=k)`: return the row with that key, or
insert a fresh defaulted row.  The Bool is the `created` flag. -/
def get_or_create (t : ConfigTable) (k : Nat) : SiteConfig × ConfigTable × Bool :=
  match t.find? (fun r => decide (r.pk = k)) with
  | some r => (r, t, false)
  | none => (defaultSiteConfig k, t ++ [defaultSiteConfig k], true)

/-- Embeds `SiteConfig.get_solo` (`config/models.py` lines 60-64):
`get_or_create(pk=1)`. -/
def get_solo (t : ConfigTable) : SiteConfig × ConfigTable :=
  ((get_or_create t 1).1, (get_or_create t 1).2.1)

/-- Embeds `SiteConfig.save` (`config/models.py` lines 66-69): force `self.pk = 1`
then `super().save()`, which updates the row with key 1 when present and
inserts it otherwise. -/
def SiteConfig.save (c : SiteConfig) (t : ConfigTable) : ConfigTable :=
  let c1 : SiteConfig := { c with pk := 1 }
  if t.any (fun r => decide (r.pk = 1)) then
    t.map (fun r => if r.pk = 1 then c1 else r)
  else t ++ [c1]

/-- An operation against the `SiteConfig` table. -/
inductive ConfigOp
  | getSolo
  | saveRow (c : SiteConfig)
deriving DecidableEq, Repr

/-- Apply one `SiteConfig` operation to the table. -/
def applyConfigOp (t : ConfigTable) : ConfigOp → ConfigTable
  | .getSolo => (get_solo t).2
  | .saveRow c => c.save t

/-- Run a sequence of `SiteConfig` operations from the empty table. -/
def runConfigOps (ops : List ConfigOp) : ConfigTable :=
  ops.foldl applyConfigOp []

/-- The `site_config` context processor
(`config/context_processors.py` lines 10-24).  `cache` is the process
cache's value under `"site_config"`; `fetch` is the outcome of
`SiteConfig.get_solo()` (`Except.error` when the read raises).  Returns
(the `site_config` context value, the cache afterwards).  On a cache
miss, a successful read is cached; any exception is swallowed and the
context value is `None`. -/
def site_config (cache : Option SiteConfig) (fetch : Except Unit SiteConfig) :
    Option SiteConfig × Option SiteConfig :=
  match cache with
  | some c => (some c, some c)
  | none =>
    match fetch with
    | .ok c => (some c, some c)
    | .error _ => (none, none)

/-- A tenant database with one Library (key 1) and eleven reader accounts
of that Library: the concrete input exercising the display cap of the
library-admin dashboard. -/
def elevenReadersDB : DB :=
  { libraries := [{ pk := 1, name := pystr "Lib", email := pystr "lib@x.com"
                    phone := [], address := [], postal_code := [], city := []
                    is_active := true }]
    users := (List.range 11).map fun i =>
      { email := pystr "reader" ++ [48 + i] ++ pystr "@x.com", role := Role.reader
        library_id := some 1, is_active := true, is_staff := false
        is_superuser := false } }

/-- The library admin of the `elevenReadersDB` tenant. -/
def elevenReadersAdmin : User :=
  { email := pystr "admin@x.com", role := Role.library_admin, library_id := some 1
    is_active := true, is_staff := false, is_superuser := false }

/-! ## Lemmas on the string model -/

lemma lowerChar_idem (c : Nat) : lowerChar (lowerChar c) = lowerChar c := by
  by_cases h : 65 ≤ c ∧ c ≤ 90
  · simp only [lowerChar]
    rw [if_pos h, if_neg (by omega)]
  · simp only [lowerChar]
    rw [if_neg h, if_neg h]

lemma lowerChar_eq_64 (c : Nat) : lowerChar c = 64 ↔ c = 64 := by
  simp only [lowerChar]
  split <;> omega

lemma isSpaceChar_lowerChar (c : Nat) : isSpaceChar (lowerChar c) = isSpaceChar c := by
  rw [Bool.eq_iff_iff]
  simp only [isSpaceChar, lowerChar, Bool.or_eq_true, Bool.and_eq_true, decide_eq_true_eq]
  split <;> omega

lemma lowerStr_idem (s : PyStr) : lowerStr (lowerStr s) = lowerStr s := by
  simp only [lowerStr, List.map_map]
  exact List.map_congr_left fun a _ => lowerChar_idem a

lemma pyStrip_lowerStr (s : PyStr) : pyStrip (lowerStr s) = lowerStr (pyStrip s) := by
  have hpf : isSpaceChar ∘ lowerChar = isSpaceChar := funext isSpaceChar_lowerChar
  simp only [pyStrip, lowerStr, List.dropWhile_map, hpf, ← List.map_reverse]

lemma rsplitAtSign_lowerStr (s : PyStr) :
    rsplitAtSign (lowerStr s) =
      (rsplitAtSign s).map (fun q => (lowerStr q.1, lowerStr q.2)) := by
  induction s with
  | nil => rfl
  | cons c cs ih =>
    show rsplitAtSign (lowerChar c :: lowerStr cs) =
      Option.map (fun q => (lowerStr q.1, lowerStr q.2)) (rsplitAtSign (c :: cs))
    simp only [rsplitAtSign, ih]
    cases h : rsplitAtSign cs with
    | some nd =>
      obtain ⟨n, d⟩ := nd
      simp [lowerStr]
    | none =>
      by_cases hc : c = 64
      · subst hc
        have h64 : lowerChar 64 = 64 := by simp [lowerChar]
        simp [h64, lowerStr]
      · have h64 : lowerChar c ≠ 64 := fun hl => hc ((lowerChar_eq_64 c).mp hl)
        simp [h64, hc]

lemma rsplitAtSign_eq_none_iff (s : PyStr) : rsplitAtSign s = none ↔ 64 ∉ s := by
  induction s with
  | nil => simp [rsplitAtSign]
  | cons c cs ih =>
    simp only [rsplitAtSign]
    cases h : rsplitAtSign cs with
    | some nd =>
      have : 64 ∈ cs := by
        by_contra hc
        rw [← ih] at hc
        rw [h] at hc
        exact Option.noConfusion hc
      simp [this]
    | none =>
      have hns : 64 ∉ cs := ih.mp h
      by_cases hc : c = 64
      · subst hc; simp
      · simp [hc, hns, Ne.symm hc]

lemma rsplitAtSign_eq_some (s n d : PyStr) (h : rsplitAtSign s = some (n, d)) :
    s = n ++ 64 :: d ∧ 64 ∉ d := by
  induction s generalizing n d with
  | nil => exact Option.noConfusion h
  | cons c cs ih =>
    rw [rsplitAtSign] at h
    cases h2 : rsplitAtSign cs with
    | some nd =>
      obtain ⟨n2, d2⟩ := nd
      rw [h2] at h
      simp only [Option.some.injEq, Prod.mk.injEq] at h
      obtain ⟨hn, hd⟩ := h
      obtain ⟨hcs, hnd⟩ := ih n2 d2 h2
      subst hn hd hcs
      exact ⟨rfl, hnd⟩
    | none =>
      rw [h2] at h
      by_cases hc : c = 64
      · rw [if_pos hc] at h
        simp only [Option.some.injEq, Prod.mk.injEq] at h
        obtain ⟨hn, hd⟩ := h
        subst hc hd
        subst hn
        exact ⟨rfl, (rsplitAtSign_eq_none_iff cs).mp h2⟩
      · rw [if_neg hc] at h
        exact Option.noConfusion h

lemma rsplitAtSign_append_no_at (n d : PyStr) (hd : 64 ∉ d) :
    rsplitAtSign (n ++ 64 :: d) = some (n, d) := by
  induction n with
  | nil =>
    rw [List.nil_append, rsplitAtSign, (rsplitAtSign_eq_none_iff d).mpr hd]
    simp
  | cons c n2 ih =>
    rw [List.cons_append, rsplitAtSign, ih]

lemma length_dropWhile_le (p : Nat → Bool) (l : List Nat) :
    (List.dropWhile p l).length ≤ l.length := by
  induction l with
  | nil => simp
  | cons a t ih =>
    rw [List.dropWhile_cons]
    split
    · exact Nat.le_trans ih (Nat.le_succ _)
    · exact Nat.le_refl _

lemma dropWhile_idem (p : Nat → Bool) (l : List Nat) :
    List.dropWhile p (List.dropWhile p l) = List.dropWhile p l := by
  induction l with
  | nil => rfl
  | cons a t ih =>
    rw [List.dropWhile_cons]
    split
    · exact ih
    · next h => rw [List.dropWhile_cons, if_neg h]

lemma dropWhile_head_false {p : Nat → Bool} {l : List Nat} {a : Nat} {t : List Nat}
    (h : List.dropWhile p l = a :: t) : p a = false := by
  have h2 := dropWhile_idem p l
  rw [h, List.dropWhile_cons] at h2
  by_cases hp : p a = true
  · rw [if_pos hp] at h2
    have hle := length_dropWhile_le p t
    have := congrArg List.length h2
    simp at this
    omega
  · exact Bool.eq_false_iff.mpr hp

lemma pyStrip_idem (s : PyStr) : pyStrip (pyStrip s) = pyStrip s := by
  unfold pyStrip
  have h1 : ((((s.dropWhile isSpaceChar).reverse.dropWhile isSpaceChar).reverse).dropWhile
      isSpaceChar) = ((s.dropWhile isSpaceChar).reverse.dropWhile isSpaceChar).reverse := by
    cases hBr : ((s.dropWhile isSpaceChar).reverse.dropWhile isSpaceChar).reverse with
    | nil => simp
    | cons a t =>
      have hsplit : (s.dropWhile isSpaceChar).reverse.takeWhile isSpaceChar ++
          (s.dropWhile isSpaceChar).reverse.dropWhile isSpaceChar =
          (s.dropWhile isSpaceChar).reverse :=
        List.takeWhile_append_dropWhile isSpaceChar _
      have hA : s.dropWhile isSpaceChar =
          ((s.dropWhile isSpaceChar).reverse.dropWhile isSpaceChar).reverse ++
            ((s.dropWhile isSpaceChar).reverse.takeWhile isSpaceChar).reverse := by
        conv_lhs => rw [← List.reverse_reverse (s.dropWhile isSpaceChar), ← hsplit]
        rw [List.reverse_append]
      rw [hBr] at hA
      have hpa : isSpaceChar a = false := dropWhile_head_false (by rw [hA]; rfl)
      rw [List.dropWhile_cons, hpa]
      simp
  rw [h1, List.reverse_reverse, dropWhile_idem]

lemma storedEmail_lowerStr (e : PyStr) : storedEmail (lowerStr e) = storedEmail e := by
  unfold storedEmail normalize_email
  rw [pyStrip_lowerStr, rsplitAtSign_lowerStr]
  cases h : rsplitAtSign (pyStrip e) with
  | none => simp [lowerStr_idem]
  | some nd =>
    obtain ⟨n, d⟩ := nd
    have h64 : lowerChar 64 = 64 := by simp [lowerChar]
    simp only [Option.map_some]
    simp [lowerStr, List.map_append, lowerChar_idem, h64]
    have hn : List.map (lowerChar ∘ lowerChar) n = List.map lowerChar n :=
      List.map_congr_left fun a _ => lowerChar_idem a
    have hd3 : List.map (lowerChar ∘ lowerChar ∘ lowerChar) d =
        List.map (lowerChar ∘ lowerChar) d :=
      List.map_congr_left fun a _ => by
        simp only [Function.comp_apply, lowerChar_idem]
    rw [hn, hd3]

lemma storedEmail_idem (e : PyStr) : storedEmail (storedEmail e) = storedEmail e := by
  cases h : rsplitAtSign (pyStrip e) with
  | none =>
    have he : storedEmail e = lowerStr e := by
      unfold storedEmail normalize_email
      rw [h]
    rw [he, storedEmail_lowerStr, he]
  | some nd =>
    obtain ⟨n, d⟩ := nd
    obtain ⟨hs, hd⟩ := rsplitAtSign_eq_some _ _ _ h
    have h64 : lowerChar 64 = 64 := by simp [lowerChar]
    have he : storedEmail e = lowerStr (pyStrip e) := by
      unfold storedEmail normalize_email
      rw [h]
      show lowerStr (n ++ 64 :: lowerStr d) = lowerStr (pyStrip e)
      rw [hs]
      simp only [lowerStr, List.map_append, List.map_cons, List.map_map, h64]
      have hd2 : List.map (lowerChar ∘ lowerChar) d = List.map lowerChar d :=
        List.map_congr_left fun a _ => lowerChar_idem a
      rw [hd2]
    rw [he, storedEmail_lowerStr, ← he]
    unfold storedEmail normalize_email
    rw [pyStrip_idem, h]

/-! ## Claim theorems -/

/-- C8: user email identity is idempotently normalized to lowercase by
`create_user`: creating a user from any email string and from its
lowercased form stores the same identity, and normalizing an
already-normalized email changes nothing. -/
theorem create_user_email_idempotently_normalized (e : PyStr) (ef : ExtraFields) :
    (create_user e ef).map User.email = (create_user (lowerStr e) ef).map User.email ∧
    storedEmail (storedEmail e) = storedEmail e ∧
    storedEmail (pystr "TEST@EXAMPLE.COM") = storedEmail (pystr "test@example.com") := by
  refine ⟨?_, storedEmail_idem e, by decide⟩
  unfold create_user
  by_cases he : e = []
  · subst he
    rfl
  · have hle : ¬(lowerStr e = []) := by
      cases e with
      | nil => exact absurd rfl he
      | cons a t => simp [lowerStr]
    rw [if_neg he, if_neg hle]
    show Except.ok (storedEmail e) = Except.ok (storedEmail (lowerStr e))
    rw [storedEmail_lowerStr]

/-- C9: the `site_config` context processor swallows any exception raised
while reading the configuration singleton, setting the context value to
`None`; on success it returns the singleton and caches it, and a cached
value is served as-is. -/
theorem site_config_swallows_read_errors :
    (∀ e : Unit, site_config none (Except.error e) = (none, none)) ∧
    (∀ c : SiteConfig, site_config none (Except.ok c) = (some c, some c)) ∧
    (∀ (c : SiteConfig) (f : Except Unit SiteConfig),
        site_config (some c) f = (some c, some c)) :=
  ⟨fun _ => rfl, fun _ => rfl, fun _ _ => rfl⟩

/-- C10: the library update operation never changes a Library's email
(or its primary key): the update form writes only `name`, `phone`,
`address`, `postal_code`, `city` and `is_active`, and persisting it
leaves the email column of the table unchanged. -/
theorem library_update_preserves_email :
    (∀ (lib : Library) (fd : UpdateFormData),
        (libraryUpdateForm_save lib fd).email = lib.email ∧
        (libraryUpdateForm_save lib fd).pk = lib.pk) ∧
    (∀ (db : DB) (pk : Nat) (fd : UpdateFormData),
        (libraryUpdate_persist db pk fd).libraries.map Library.email =
          db.libraries.map Library.email) := by
  refine ⟨fun lib fd => ⟨rfl, rfl⟩, fun db pk fd => ?_⟩
  simp only [libraryUpdate_persist]
  rw [List.map_map]
  exact List.map_congr_left fun l _ => by
    simp only [Function.comp_apply]
    split <;> rfl

/-- C5: after a successful library-creation POST the session holds the
plaintext password under `generated_password`; the next GET pops the key
while rendering it, so the secret is present right after the POST, shown
at most once, and absent from the session afterwards. -/
theorem generated_password_shown_at_most_once (s : Session) (p : PyStr) (hp : p ≠ []) :
    (libraryCreate_form_valid_session s p).generated_password = some p ∧
    (libraryCreate_get_context (libraryCreate_form_valid_session s p)).1 = some p ∧
    ((libraryCreate_get_context (libraryCreate_form_valid_session s p)).2).generated_password
      = none ∧
    (libraryCreate_get_context
      (libraryCreate_get_context (libraryCreate_form_valid_session s p)).2).1 = none := by
  have hne : p.isEmpty = false := by
    cases p with
    | nil => exact absurd rfl hp
    | cons a t => rfl
  refine ⟨?_, ?_, ?_, ?_⟩ <;>
    simp [libraryCreate_form_valid_session, libraryCreate_get_context, hne]

/-- Witness for C5 at a concrete session and password. -/
theorem generated_password_shown_at_most_once_witness :
    pystr "pw" ≠ [] ∧
    ((libraryCreate_form_valid_session ⟨none⟩ (pystr "pw")).generated_password
        = some (pystr "pw") ∧
      (libraryCreate_get_context
        (libraryCreate_form_valid_session ⟨none⟩ (pystr "pw"))).1 = some (pystr "pw") ∧
      ((libraryCreate_get_context
        (libraryCreate_form_valid_session ⟨none⟩ (pystr "pw"))).2).generated_password
        = none ∧
      (libraryCreate_get_context
        (libraryCreate_get_context
          (libraryCreate_form_valid_session ⟨none⟩ (pystr "pw"))).2).1 = none) :=
  ⟨by decide, generated_password_shown_at_most_once ⟨none⟩ (pystr "pw") (by decide)⟩

/-- C3: for an authenticated principal that is not a superadmin, the
super-admin-only gate is asymmetric per entry point: on the dashboard a
library admin gets the library-admin dashboard context and a reader the
placeholder render (never a 403), while the library create/list entry
points answer HTTP 403. -/
theorem superadmin_gate_asymmetry (db : DB) (u : User)
    (hns : u.role ≠ Role.superadmin) :
    (u.role = Role.library_admin →
      dashboard_superAdminRequired_dispatch db u =
        DashboardResponse.libraryAdminDashboard (mixin_get_library_context db u) ∧
      dashboardIndex_view db true u =
        DashboardResponse.libraryAdminDashboard (index_get_library_context db u)) ∧
    (u.role = Role.reader →
      dashboard_superAdminRequired_dispatch db u = DashboardResponse.readerPlaceholder ∧
      dashboardIndex_view db true u = DashboardResponse.readerPlaceholder) ∧
    dashboard_superAdminRequired_dispatch db u ≠ DashboardResponse.httpForbidden ∧
    dashboardIndex_view db true u ≠ DashboardResponse.httpForbidden ∧
    libraries_superAdminRequired_gate true u = GateResponse.httpForbidden := by
  cases hr : u.role with
  | superadmin => exact absurd hr hns
  | library_admin =>
    simp [dashboard_superAdminRequired_dispatch, dashboardIndex_view,
      libraries_superAdminRequired_gate, User.is_superadmin, User.is_library_admin,
      User.is_reader, hr]
  | reader =>
    simp [dashboard_superAdminRequired_dispatch, dashboardIndex_view,
      libraries_superAdminRequired_gate, User.is_superadmin, User.is_library_admin,
      User.is_reader, hr]

/-- Witness for C3 at a concrete library-admin principal. -/
theorem superadmin_gate_asymmetry_witness :
    ({ email := pystr "admin@x.com", role := Role.library_admin, library_id := some 1,
       is_active := true, is_staff := false, is_superuser := false } : User).role
      ≠ Role.superadmin ∧
    libraries_superAdminRequired_gate true
      { email := pystr "admin@x.com", role := Role.library_admin, library_id := some 1,
        is_active := true, is_staff := false, is_superuser := false }
      = GateResponse.httpForbidden :=
  ⟨by decide,
    (superadmin_gate_asymmetry ⟨[], []⟩
      { email := pystr "admin@x.com", role := Role.library_admin, library_id := some 1,
        is_active := true, is_staff := false, is_superuser := false }
      (by decide)).2.2.2.2⟩

/-- C6 counterexample: the claim quantifies over both factory entry
points, but `create_user` called with `role="superadmin"` and no explicit
flags produces a superadmin row with `is_staff = False` and
`is_superuser = False`. -/
theorem superadmin_flags_counterexample :
    ¬ (∀ (email : PyStr) (ef : ExtraFields) (u : User),
        (create_user email ef = Except.ok u ∨ create_superuser email ef = Except.ok u) →
        u.role = Role.superadmin → u.is_staff = true ∧ u.is_superuser = true) := by
  intro h
  have hc := h (pystr "superadmin@test.com")
    { role := some Role.superadmin, is_staff := none, is_superuser := none,
      library_id := none }
    { email := storedEmail (pystr "superadmin@test.com"), role := Role.superadmin,
      library_id := none, is_active := true, is_staff := false, is_superuser := false }
    (Or.inl rfl) rfl
  exact absurd hc.1 (by decide)

/-- C6 amended: the invariant holds for the `create_superuser` entry
point: every user it successfully produces has `is_staff = True` and
`is_superuser = True` (so in particular every superadmin it produces
does); `create_user` enforces no such invariant. -/
theorem create_superuser_forces_flags (email : PyStr) (ef : ExtraFields) (u : User)
    (h : create_superuser email ef = Except.ok u) :
    u.is_staff = true ∧ u.is_superuser = true := by
  simp only [create_superuser] at h
  split at h
  · exact Except.noConfusion h
  · split at h
    · exact Except.noConfusion h
    · next hstaff hsuper =>
      unfold create_user at h
      split at h
      · exact Except.noConfusion h
      · simp only [Except.ok.injEq] at h
        subst h
        simp only [not_not] at hstaff hsuper
        simp only [Option.some.injEq] at hstaff hsuper
        simp [User.is_staff, User.is_superuser, hstaff, hsuper]

/-- Witness for the amended C6 at a concrete call. -/
theorem create_superuser_forces_flags_witness :
    create_superuser (pystr "root@x.com") ⟨none, none, none, none⟩ =
      Except.ok
        { email := storedEmail (pystr "root@x.com"), role := Role.superadmin,
          library_id := none, is_active := true, is_staff := true,
          is_superuser := true } ∧
    ({ email := storedEmail (pystr "root@x.com"), role := Role.superadmin,
       library_id := none, is_active := true, is_staff := true,
       is_superuser := true } : User).is_staff = true ∧
    ({ email := storedEmail (pystr "root@x.com"), role := Role.superadmin,
       library_id := none, is_active := true, is_staff := true,
       is_superuser := true } : User).is_superuser = true :=
  ⟨rfl,
    create_superuser_forces_flags (pystr "root@x.com") ⟨none, none, none, none⟩ _ rfl⟩

lemma siteconfig_applyOp_inv {t : ConfigTable}
    (h : t.length ≤ 1 ∧ ∀ r ∈ t, r.pk = 1) (op : ConfigOp) :
    (applyConfigOp t op).length ≤ 1 ∧ ∀ r ∈ applyConfigOp t op, r.pk = 1 := by
  obtain ⟨hlen, hpk⟩ := h
  cases op with
  | getSolo =>
    simp only [applyConfigOp, get_solo, get_or_create]
    cases hf : t.find? (fun r => decide (r.pk = 1)) with
    | some r => exact ⟨hlen, hpk⟩
    | none =>
      cases t with
      | nil => simp [defaultSiteConfig]
      | cons r t2 =>
        have h1 : r.pk = 1 := hpk r (List.mem_cons_self r t2)
        rw [List.find?_cons_of_pos _ (by simp [h1])] at hf
        exact Option.noConfusion hf
  | saveRow c =>
    simp only [applyConfigOp, SiteConfig.save]
    by_cases hany : t.any (fun r => decide (r.pk = 1))
    · rw [if_pos hany]
      refine ⟨by simpa using hlen, ?_⟩
      intro r hr
      obtain ⟨r0, _, hr0⟩ := List.mem_map.mp hr
      by_cases h0 : r0.pk = 1
      · rw [if_pos h0] at hr0
        rw [← hr0]
      · rw [if_neg h0] at hr0
        rw [← hr0]
        exact hpk r0 (by assumption)
    · rw [if_neg hany]
      cases t with
      | nil => simp
      | cons r t2 =>
        exact absurd (List.any_eq_true.mpr
          ⟨r, List.mem_cons_self r t2, by simp [hpk r (List.mem_cons_self r t2)]⟩) hany

lemma siteconfig_run_inv (ops : List ConfigOp) :
    (runConfigOps ops).length ≤ 1 ∧ ∀ r ∈ runConfigOps ops, r.pk = 1 := by
  have key : ∀ (ops' : List ConfigOp) (t : ConfigTable),
      (t.length ≤ 1 ∧ ∀ r ∈ t, r.pk = 1) →
      ((List.foldl applyConfigOp t ops').length ≤ 1 ∧
        ∀ r ∈ List.foldl applyConfigOp t ops', r.pk = 1) := by
    intro ops'
    induction ops' with
    | nil => exact fun t ht => ht
    | cons op rest ih =>
      intro t ht
      exact ih (applyConfigOp t op) (siteconfig_applyOp_inv ht op)
  exact key ops [] (by simp)

/-- C7: `SiteConfig` is a singleton: `get_solo` on the empty table creates
exactly one row with primary key 1 and the default site name; a later
`get_solo` returns that same row without creating another; and under any
sequence of `get_solo`/`save` operations (whatever the saved instance's
initial key) the table holds at most one row, always with key 1. -/
theorem siteconfig_singleton :
    get_solo [] = (defaultSiteConfig 1, [defaultSiteConfig 1]) ∧
    (∀ (t : ConfigTable) (r : SiteConfig) (t2 : ConfigTable),
        get_solo t = (r, t2) → get_solo t2 = (r, t2)) ∧
    (∀ ops : List ConfigOp,
        (runConfigOps ops).length ≤ 1 ∧ ∀ r ∈ runConfigOps ops, r.pk = 1) := by
  refine ⟨rfl, ?_, siteconfig_run_inv⟩
  intro t r t2 h
  simp only [get_solo, get_or_create] at h ⊢
  cases hf : t.find? (fun x => decide (x.pk = 1)) with
  | some r0 =>
    rw [hf] at h
    simp only [Prod.mk.injEq] at h
    obtain ⟨hr, ht⟩ := h
    subst hr
    subst ht
    rw [hf]
  | none =>
    rw [hf] at h
    simp only [Prod.mk.injEq] at h
    obtain ⟨hr, ht⟩ := h
    subst hr
    subst ht
    rw [List.find?_append, hf]
    simp [defaultSiteConfig]

/-- Witness for C7: re-reading after the creating read returns the same
row and table. -/
theorem siteconfig_singleton_witness :
    get_solo [] = (defaultSiteConfig 1, [defaultSiteConfig 1]) ∧
    get_solo [defaultSiteConfig 1] = (defaultSiteConfig 1, [defaultSiteConfig 1]) :=
  ⟨by decide,
    siteconfig_singleton.2.1 [] (defaultSiteConfig 1) [defaultSiteConfig 1] (by decide)⟩

/-- C2: a library admin whose `library` reference is `l` can update only
the Library with primary key `l`: a successful update implies the
requested id equals `l`, any other id (existing or not) answers 404
(`Http404`), and the endpoint never answers 403 for such a principal. -/
theorem library_update_tenant_isolation (db : DB) (u : User) (pkq lval : Nat)
    (h1 : u.role = Role.library_admin) (h2 : u.library_id = some lval) :
    (∀ lib : Library, libraryUpdate_dispatch db true u pkq = UpdateResponse.success lib →
        pkq = lval ∧ lib.pk = lval) ∧
    (pkq ≠ lval → libraryUpdate_dispatch db true u pkq = UpdateResponse.httpNotFound) ∧
    libraryUpdate_dispatch db true u pkq ≠ UpdateResponse.httpForbidden := by
  have hsa : u.is_superadmin = false := by simp [User.is_superadmin, h1]
  have hla : u.is_library_admin = true := by simp [User.is_library_admin, h1]
  have htf : libraryAdminRequired_test_func true u = true := by
    simp [libraryAdminRequired_test_func, hsa, hla, h2]
  have hq : libraryUpdate_get_queryset db u =
      db.libraries.filter (fun l => decide (some l.pk = u.library_id)) := by
    simp [libraryUpdate_get_queryset, hsa]
  cases hf : (libraryUpdate_get_queryset db u).find? (fun l => decide (l.pk = pkq)) with
  | none =>
    have hdisp : libraryUpdate_dispatch db true u pkq = UpdateResponse.httpNotFound := by
      simp [libraryUpdate_dispatch, htf, libraryUpdate_get_object, hf]
    refine ⟨?_, fun _ => hdisp, ?_⟩
    · intro lib hsucc
      rw [hdisp] at hsucc
      exact UpdateResponse.noConfusion hsucc
    · rw [hdisp]
      exact fun hc => UpdateResponse.noConfusion hc
  | some obj =>
    have hpk : obj.pk = pkq := by
      have := List.find?_some hf
      simpa using this
    have hobj : obj.pk = lval := by
      have hmem := List.mem_of_find?_eq_some hf
      rw [hq] at hmem
      have := (List.mem_filter.mp hmem).2
      rw [h2] at this
      simpa using this
    have hdisp : libraryUpdate_dispatch db true u pkq = UpdateResponse.success obj := by
      simp [libraryUpdate_dispatch, htf, libraryUpdate_get_object, hf, hsa, h2, hobj]
    refine ⟨?_, ?_, ?_⟩
    · intro lib hsucc
      rw [hdisp] at hsucc
      injection hsucc with hlib
      subst hlib
      exact ⟨by omega, hobj⟩
    · intro hne
      exact absurd (hpk ▸ hobj) hne
    · rw [hdisp]
      exact fun hc => UpdateResponse.noConfusion hc

/-- Witness for C2 at a concrete database and principal: requesting
another tenant's id answers 404 and never 403. -/
theorem library_update_tenant_isolation_witness :
    ({ email := pystr "admin@x.com", role := Role.library_admin, library_id := some 1,
       is_active := true, is_staff := false, is_superuser := false } : User).role
        = Role.library_admin ∧
    (∀ lib : Library,
        libraryUpdate_dispatch elevenReadersDB true
          { email := pystr "admin@x.com", role := Role.library_admin,
            library_id := some 1, is_active := true, is_staff := false,
            is_superuser := false } 2 = UpdateResponse.success lib →
        2 = 1 ∧ lib.pk = 1) ∧
    (2 ≠ 1 →
      libraryUpdate_dispatch elevenReadersDB true
        { email := pystr "admin@x.com", role := Role.library_admin,
          library_id := some 1, is_active := true, is_staff := false,
          is_superuser := false } 2 = UpdateResponse.httpNotFound) ∧
    libraryUpdate_dispatch elevenReadersDB true
      { email := pystr "admin@x.com", role := Role.library_admin,
        library_id := some 1, is_active := true, is_staff := false,
        is_superuser := false } 2 ≠ UpdateResponse.httpForbidden :=
  ⟨rfl,
    library_update_tenant_isolation elevenReadersDB
      { email := pystr "admin@x.com", role := Role.library_admin, library_id := some 1,
        is_active := true, is_staff := false, is_superuser := false } 2 1 rfl rfl⟩

/-- C4, evaluated at the failing input: with eleven readers in the
tenant, `_get_library_context` of the dashboard index view reports
`total_readers = 10` (the length of the display-capped list), while the
true reader count — and the sibling `get_library_context` of the
dashboard mixin — give 11. -/
theorem total_readers_capped_at_ten :
    (index_get_library_context elevenReadersDB elevenReadersAdmin).total_readers = 10 ∧
    (libraryReaders elevenReadersDB elevenReadersAdmin).length = 11 ∧
    (mixin_get_library_context elevenReadersDB elevenReadersAdmin).total_readers = 11 ∧
    dashboardIndex_view elevenReadersDB true elevenReadersAdmin =
      DashboardResponse.libraryAdminDashboard
        (index_get_library_context elevenReadersDB elevenReadersAdmin) := by
  refine ⟨by decide, by decide, by decide, by decide⟩

lemma create_user_db_ok {db : DB} {email : PyStr} {ef : ExtraFields} {u : User}
    {db2 : DB} (h : create_user_db db email ef = Except.ok (u, db2)) :
    db2.libraries = db.libraries ∧ db2.users = db.users ++ [u] ∧
    u.role = ef.role.getD Role.reader ∧ u.library_id = ef.library_id.getD none := by
  unfold create_user_db create_user at h
  split at h
  · exact Except.noConfusion h
  · next u0 heq =>
    split at h
    · exact Except.noConfusion h
    · simp only [Except.ok.injEq, Prod.mk.injEq] at h
      obtain ⟨hu, hdb⟩ := h
      split at heq
      · exact Except.noConfusion heq
      · simp only [Except.ok.injEq] at heq
        subst heq
        subst hu
        subst hdb
        exact ⟨rfl, rfl, rfl, rfl⟩

/-- C1 counterexample: creating a Library is not atomic with the creation
of its admin user.  With a database holding no Library but an existing
(reader) account under `lib@x.com`, the creation form for a library with
that same email passes validation (the form checks uniqueness only
against the Library table); `save` then persists the Library row, after
which `create_user` raises `IntegrityError` — leaving the orphaned
Library persisted, contradicting the claim as stated. -/
theorem library_create_atomicity_counterexample :
    ¬ (∀ (db : DB) (fd : CreateFormData),
        libraryCreateForm_is_valid db fd = true →
        ((∀ lib, (libraryCreateForm_save db fd).2 = Except.ok lib →
            lib ∈ (libraryCreateForm_save db fd).1.libraries ∧
            ∃ u, u ∈ (libraryCreateForm_save db fd).1.users ∧
              u.role = Role.library_admin ∧ u.library_id = some lib.pk) ∧
         (∀ e, (libraryCreateForm_save db fd).2 = Except.error e →
            (libraryCreateForm_save db fd).1.libraries = db.libraries))) := by
  intro h
  have hfail := (h
    { libraries := []
      users := [{ email := pystr "lib@x.com", role := Role.reader, library_id := none,
                  is_active := true, is_staff := false, is_superuser := false }] }
    { name := pystr "Lib", email := pystr "lib@x.com", phone := [], address := [],
      postal_code := [], city := [], password1 := pystr "pw", password2 := pystr "pw" }
    (by decide)).2 CreateError.integrityError rfl
  revert hfail
  decide

/-- C1 amended: for every submitted creation form that passes validation,
the Library row is persisted first and the admin account second, with no
enclosing transaction: on success both the Library row and its
library_admin user are persisted; if the admin-user creation step fails
after validation, the Library row nevertheless remains persisted (and the
user table is unchanged) — an orphaned Library without its admin
account. -/
theorem library_create_persists_library_before_admin (db : DB) (fd : CreateFormData)
    (_hv : libraryCreateForm_is_valid db fd = true) :
    (∀ lib, (libraryCreateForm_save db fd).2 = Except.ok lib →
        lib ∈ (libraryCreateForm_save db fd).1.libraries ∧
        ∃ u, u ∈ (libraryCreateForm_save db fd).1.users ∧
          u.role = Role.library_admin ∧ u.library_id = some lib.pk) ∧
    (∀ e, (libraryCreateForm_save db fd).2 = Except.error e →
        (libraryCreateForm_save db fd).1.libraries = db.libraries ++ [newLibrary db fd] ∧
        (libraryCreateForm_save db fd).1.users = db.users) := by
  rcases hsave : libraryCreateForm_save db fd with ⟨dbp, res⟩
  simp only [hsave]
  simp only [libraryCreateForm_save] at hsave
  split at hsave
  · next u0 db2 heq =>
    obtain ⟨hlib2, husers2, hurole, hulib⟩ := create_user_db_ok heq
    simp only [Prod.mk.injEq] at hsave
    obtain ⟨hdbp, hres⟩ := hsave
    subst hdbp
    subst hres
    constructor
    · intro lib hok
      simp only [Except.ok.injEq] at hok
      subst hok
      refine ⟨?_, u0, ?_, ?_, ?_⟩
      · rw [hlib2]
        exact List.mem_append_right _ (List.mem_singleton.mpr rfl)
      · rw [husers2]
        exact List.mem_append_right _ (List.mem_singleton.mpr rfl)
      · rw [hurole]
        rfl
      · rw [hulib]
        rfl
    · intro e he
      exact Except.noConfusion he
  · next e0 heq =>
    simp only [Prod.mk.injEq] at hsave
    obtain ⟨hdbp, hres⟩ := hsave
    subst hdbp
    subst hres
    constructor
    · intro lib hok
      exact Except.noConfusion hok
    · intro e he
      exact ⟨rfl, rfl⟩

/-- Witness for the amended C1 on a successful creation from an empty
database. -/
theorem library_create_persists_library_before_admin_witness :
    libraryCreateForm_is_valid ⟨[], []⟩
      { name := pystr "Lib", email := pystr "lib@x.com", phone := [], address := [],
        postal_code := [], city := [], password1 := pystr "pw",
        password2 := pystr "pw" } = true ∧
    ((∀ lib,
        (libraryCreateForm_save ⟨[], []⟩
          { name := pystr "Lib", email := pystr "lib@x.com", phone := [], address := [],
            postal_code := [], city := [], password1 := pystr "pw",
            password2 := pystr "pw" }).2 = Except.ok lib →
        lib ∈ (libraryCreateForm_save ⟨[], []⟩
          { name := pystr "Lib", email := pystr "lib@x.com", phone := [], address := [],
            postal_code := [], city := [], password1 := pystr "pw",
            password2 := pystr "pw" }).1.libraries ∧
        ∃ u, u ∈ (libraryCreateForm_save ⟨[], []⟩
            { name := pystr "Lib", email := pystr "lib@x.com", phone := [],
              address := [], postal_code := [], city := [], password1 := pystr "pw",
              password2 := pystr "pw" }).1.users ∧
          u.role = Role.library_admin ∧ u.library_id = some lib.pk) ∧
      (∀ e,
        (libraryCreateForm_save ⟨[], []⟩
          { name := pystr "Lib", email := pystr "lib@x.com", phone := [], address := [],
            postal_code := [], city := [], password1 := pystr "pw",
            password2 := pystr "pw" }).2 = Except.error e →
        (libraryCreateForm_save ⟨[], []⟩
          { name := pystr "Lib", email := pystr "lib@x.com", phone := [], address := [],
            postal_code := [], city := [], password1 := pystr "pw",
            password2 := pystr "pw" }).1.libraries =
          ([] : List Library) ++ [newLibrary ⟨[], []⟩
            { name := pystr "Lib", email := pystr "lib@x.com", phone := [],
              address := [], postal_code := [], city := [], password1 := pystr "pw",
              password2 := pystr "pw" }] ∧
        (libraryCreateForm_save ⟨[], []⟩
          { name := pystr "Lib", email := pystr "lib@x.com", phone := [], address := [],
            postal_code := [], city := [], password1 := pystr "pw",
            password2 := pystr "pw" }).1.users = ([] : List User))) :=
  ⟨by decide,
    library_create_persists_library_before_admin ⟨[], []⟩
      { name := pystr "Lib", email := pystr "lib@x.com", phone := [], address := [],
        postal_code := [], city := [], password1 := pystr "pw",
        password2 := pystr "pw" } (by decide)⟩
